import Mathlib

/-!
A verification development for the adaptive music recommendation backend
(`adaptive_music_backend.py`).  All Python floats are modelled as exact
rationals (`ℚ`); Python dictionaries with `get`-style defaulted access are
modelled either as Lean structures with `Option` fields (`.getD` mirrors
`dict.get(key, default)`) or as total functions defaulting to `0`.
-/

namespace AdaptiveMusic

/-- Python `l[-n:]`: the last at most `n` elements of a list. -/
def lastN {α : Type} (l : List α) (n : ℕ) : List α :=
  l.drop (l.length - n)

/-- One listening event, as passed to `record_listening_event` and stored in
`listening_history` (`{'track_id': …, 'genres': …, 'completion': …}`).
The wall-clock `timestamp` string stored alongside is not modelled: no
computation in the backend reads it. -/
structure ListeningEvent where
  track_id : String
  genres : List String
  completion : ℚ
deriving DecidableEq

/-- The mutable state of `UserBehaviorTracker`
(`adaptive_music_backend.py`, `__init__`, lines 48–53).
`genre_scores` is a Python dict read through `.get(genre, 0.0)`; it is
modelled as a total function with default `0`. -/
structure BehaviorState where
  genre_scores : String → ℚ
  skip_threshold : ℚ
  skip_history : List ℚ
  listening_history : List ListeningEvent

/-- `UserBehaviorTracker.__init__`: empty affinities, threshold `0.50`,
empty histories. -/
def initBehaviorState : BehaviorState :=
  { genre_scores := fun _ => 0
    skip_threshold := 1/2
    skip_history := []
    listening_history := [] }

/-- `UserBehaviorTracker._adjust_skip_threshold` (lines 127–142):
with fewer than 5 recorded skips do nothing; otherwise average the last 20
skip fractions, clamp `avg + 0.10` to `[0.20, 0.80]`, and install the new
threshold only if it differs from the current one by more than `0.05`. -/
def adjust_skip_threshold (s : BehaviorState) : BehaviorState :=
  if s.skip_history.length < 5 then s
  else
    let recent_skips := lastN s.skip_history 20
    let avg_skip_point := recent_skips.sum / (recent_skips.length : ℚ)
    let new_threshold := min (4/5) (max (1/5) (avg_skip_point + 1/10))
    if 1/20 < |new_threshold - s.skip_threshold| then
      { s with skip_threshold := new_threshold }
    else s

/-- Body of the `for genre in genres` loop of
`UserBehaviorTracker.record_listening_event` (lines 105–122): a flat `+0.20`
for completion `≥ 0.90`, a graded bonus above the skip threshold, a graded
penalty below it, and a final clamp of the genre score to `[-1, 1]`. -/
def genre_score_step (completion_percentage : ℚ) (st : BehaviorState) (genre : String) : BehaviorState :=
  let current := st.genre_scores genre
  let updated :=
    if 9/10 ≤ completion_percentage then
      current + 1/5
    else if st.skip_threshold ≤ completion_percentage then
      current + (completion_percentage - st.skip_threshold) / (1 - st.skip_threshold) * (3/20)
    else
      current - (st.skip_threshold - completion_percentage) / st.skip_threshold * (1/5)
  { st with genre_scores := Function.update st.genre_scores genre (max (-1) (min 1 updated)) }

/-- `UserBehaviorTracker.record_listening_event` (lines 73–125): append the
event to the listening history; if the completion is below the current skip
threshold, record it in the skip history and re-adjust the threshold; then
update each listed genre's score via `genre_score_step`. -/
def record_listening_event (s : BehaviorState) (track_id : String) (genres : List String)
    (completion_percentage : ℚ) : BehaviorState :=
  let s1 : BehaviorState :=
    { s with listening_history :=
        s.listening_history ++ [⟨track_id, genres, completion_percentage⟩] }
  let was_skipped := completion_percentage < s1.skip_threshold
  let s2 : BehaviorState :=
    if was_skipped then
      adjust_skip_threshold { s1 with skip_history := s1.skip_history ++ [completion_percentage] }
    else s1
  genres.foldl (genre_score_step completion_percentage) s2

/-- `UserBehaviorTracker.get_genre_modifier` (lines 144–161): `0.0` for an
empty genre list, otherwise the mean of the genres' scores scaled by `0.5`. -/
def get_genre_modifier (s : BehaviorState) (genres : List String) : ℚ :=
  if genres = [] then 0
  else
    let total_score := (genres.map (fun genre => s.genre_scores genre)).sum
    let avg_score := total_score / (genres.length : ℚ)
    avg_score * (1/2)

/-- The `'behavior_tracker'` blob that `save_to_session` writes into the
Flask session (lines 64–71). -/
structure SessionBehaviorData where
  genre_scores : String → ℚ
  skip_threshold : ℚ
  skip_history : List ℚ
  listening_history : List ListeningEvent

/-- `UserBehaviorTracker.save_to_session` (lines 64–71): persist the state,
keeping only the last 50 skip fractions and the last 100 listening events. -/
def save_to_session (s : BehaviorState) : SessionBehaviorData :=
  { genre_scores := s.genre_scores
    skip_threshold := s.skip_threshold
    skip_history := lastN s.skip_history 50
    listening_history := lastN s.listening_history 100 }

/-- `UserBehaviorTracker.update_from_session` (lines 55–62): load the saved
state into a fresh tracker. -/
def update_from_session (d : SessionBehaviorData) : BehaviorState :=
  { genre_scores := d.genre_scores
    skip_threshold := d.skip_threshold
    skip_history := d.skip_history
    listening_history := d.listening_history }

/-- Session contents before any behavior has been recorded: loading it gives
the default tracker state (a session without a `'behavior_tracker'` key makes
`update_from_session` keep the `__init__` defaults). -/
def initSessionData : SessionBehaviorData :=
  { genre_scores := fun _ => 0
    skip_threshold := 1/2
    skip_history := []
    listening_history := [] }

/-- One round trip of the `/api/behavior/track` endpoint
(`record_listening_behavior`, lines 1233–1263): load the tracker from the
session, record the event, save the tracker back.  Every
`record_listening_event` call in the backend happens inside this cycle. -/
def record_behavior_request (d : SessionBehaviorData) (e : ListeningEvent) : SessionBehaviorData :=
  save_to_session (record_listening_event (update_from_session d) e.track_id e.genres e.completion)

/-- Replay a sequence of raw `record_listening_event` calls on one tracker. -/
def applyEvents (s : BehaviorState) : List ListeningEvent → BehaviorState
  | [] => s
  | e :: rest => applyEvents (record_listening_event s e.track_id e.genres e.completion) rest

/-- Replay a sequence of `/api/behavior/track` requests on the session. -/
def applyRequests (d : SessionBehaviorData) : List ListeningEvent → SessionBehaviorData
  | [] => d
  | e :: rest => applyRequests (record_behavior_request d e) rest

/-- The pre-clamp adjustment applied to a genre's affinity by one listening
event, as a function of the skip threshold in force during the genre-update
loop and the completion fraction. -/
def genreDelta (threshold completion : ℚ) : ℚ :=
  if 9/10 ≤ completion then 1/5
  else if threshold ≤ completion then (completion - threshold) / (1 - threshold) * (3/20)
  else -((threshold - completion) / threshold * (1/5))

/-- Is `needle` a contiguous sublist of `hay`?  Models the Python substring
test `needle in hay` on the underlying character lists. -/
def hasSubstring (needle : List Char) : List Char → Bool
  | [] => needle.isEmpty
  | c :: rest => (List.isPrefixOf needle (c :: rest)) || hasSubstring needle rest

/-- Python's `needle in hay` on strings. -/
def strIncl (needle hay : String) : Bool :=
  hasSubstring needle.data hay.data

/-- The five-key modifier dictionary produced by `get_weather_modifiers` and
`get_context_modifiers` (`{'energy_boost': …, 'valence_boost': …,
'tempo_boost': …, 'acoustic_boost': …, 'danceability_boost': …}`). -/
structure Modifiers where
  energy_boost : ℚ
  valence_boost : ℚ
  tempo_boost : ℚ
  acoustic_boost : ℚ
  danceability_boost : ℚ
deriving DecidableEq

/-- The all-zero modifier dictionary both modifier functions start from. -/
def zeroModifiers : Modifiers :=
  { energy_boost := 0, valence_boost := 0, tempo_boost := 0
    acoustic_boost := 0, danceability_boost := 0 }

/-- The weather dictionary read by `get_weather_modifiers`; every field is
read with `weather.get(key, default)`, so each is an `Option`. -/
structure Weather where
  temperature : Option ℚ
  apparent_temperature : Option ℚ
  cloud_cover : Option ℚ
  precipitation : Option ℚ
  wind_speed : Option ℚ
  wind_gusts : Option ℚ
  humidity : Option ℚ
  conditions : Option String
deriving DecidableEq

/-- Weather dictionary with no keys set. -/
def emptyWeather : Weather :=
  { temperature := none, apparent_temperature := none, cloud_cover := none
    precipitation := none, wind_speed := none, wind_gusts := none
    humidity := none, conditions := none }

/-- `WeatherAwareMusicEngine.get_weather_modifiers` (lines 423–490): a fixed
table of temperature / cloud / precipitation / wind / humidity / condition
rules, applied in source order with later blocks overwriting earlier keys. -/
def get_weather_modifiers (weather : Weather) : Modifiers :=
  let modifiers := zeroModifiers
  let temp := weather.temperature.getD 70
  let apparent_temp := weather.apparent_temperature.getD temp
  let modifiers :=
    if apparent_temp < 40 then
      { modifiers with energy_boost := 3/10, tempo_boost := 1/5, valence_boost := 1/5 }
    else if 85 < apparent_temp then
      { modifiers with energy_boost := -(1/5), acoustic_boost := 1/5, valence_boost := 3/10 }
    else if 60 ≤ apparent_temp ∧ apparent_temp ≤ 75 then
      { modifiers with valence_boost := 3/10, danceability_boost := 1/5 }
    else modifiers
  let cloud_cover := weather.cloud_cover.getD 0
  let precipitation := weather.precipitation.getD 0
  let modifiers :=
    if 1/2 < precipitation ∨ 70 < cloud_cover then
      { modifiers with acoustic_boost := 2/5, valence_boost := -(1/5)
                       energy_boost := -(1/5), tempo_boost := -(1/10) }
    else if cloud_cover < 30 then
      { modifiers with valence_boost := 3/10, energy_boost := 1/5 }
    else modifiers
  let wind_speed := weather.wind_speed.getD 0
  let wind_gusts := weather.wind_gusts.getD wind_speed
  let modifiers :=
    if 25 < wind_gusts then
      { modifiers with energy_boost := 3/10, tempo_boost := 1/5 }
    else if wind_speed < 5 then
      { modifiers with acoustic_boost := 1/5, energy_boost := -(1/10) }
    else modifiers
  let humidity := weather.humidity.getD 50
  let modifiers :=
    if 80 < humidity then
      { modifiers with energy_boost := -(1/5), tempo_boost := -(1/10) }
    else modifiers
  let conditions := (weather.conditions.getD ("")).toLower
  let modifiers :=
    if strIncl ("storm") conditions ∨ strIncl ("thunder") conditions then
      { modifiers with energy_boost := 2/5, tempo_boost := 3/10, acoustic_boost := -(1/5) }
    else if strIncl ("snow") conditions then
      { modifiers with acoustic_boost := 3/10, valence_boost := 1/5, energy_boost := -(1/10) }
    else modifiers
  modifiers

/-- The context dictionary read by `get_context_modifiers`
(`context.get('activity', 'relaxing')`, `context.get('timeOfDay',
'afternoon')`). -/
structure Context where
  activity : Option String
  timeOfDay : Option String
deriving DecidableEq

/-- `WeatherAwareMusicEngine.get_context_modifiers` (lines 492–550): a fixed
activity table, then additive time-of-day deltas. -/
def get_context_modifiers (context : Context) : Modifiers :=
  let modifiers := zeroModifiers
  let activity := context.activity.getD ("relaxing")
  let time_of_day := context.timeOfDay.getD ("afternoon")
  let modifiers :=
    if activity = "working out" then
      { modifiers with energy_boost := 1/2, tempo_boost := 1/2, danceability_boost := 2/5 }
    else if activity = "relaxing" then
      { modifiers with energy_boost := -(2/5), acoustic_boost := 1/2, tempo_boost := -(1/5) }
    else if activity = "focusing" then
      { modifiers with acoustic_boost := 2/5, energy_boost := -(1/5), valence_boost := 1/10 }
    else if activity = "party" then
      { modifiers with energy_boost := 3/5, danceability_boost := 1/2, valence_boost := 2/5 }
    else if activity = "commuting" then
      { modifiers with energy_boost := 1/5, valence_boost := 3/10, tempo_boost := 1/10 }
    else if activity = "studying" then
      { modifiers with acoustic_boost := 1/2, energy_boost := -(3/10)
                       tempo_boost := -(1/5), valence_boost := 1/10 }
    else modifiers
  let modifiers :=
    if time_of_day = "morning" then
      { modifiers with energy_boost := modifiers.energy_boost + 3/10
                       valence_boost := modifiers.valence_boost + 3/10
                       tempo_boost := modifiers.tempo_boost + 1/5 }
    else if time_of_day = "afternoon" then
      { modifiers with energy_boost := modifiers.energy_boost + 1/10
                       valence_boost := modifiers.valence_boost + 1/5 }
    else if time_of_day = "evening" then
      { modifiers with energy_boost := modifiers.energy_boost - 1/10
                       acoustic_boost := modifiers.acoustic_boost + 1/5
                       valence_boost := modifiers.valence_boost + 1/10 }
    else if time_of_day = "night" then
      { modifiers with energy_boost := modifiers.energy_boost - 3/10
                       acoustic_boost := modifiers.acoustic_boost + 3/10
                       tempo_boost := modifiers.tempo_boost - 1/10 }
    else modifiers
  modifiers

/-- `WeatherAwareMusicEngine.combine_modifiers` (lines 552–559):
`combined[k] = weather[k]*0.6 + context[k]*0.4` for every key. -/
def combine_modifiers (weather_mods context_mods : Modifiers) : Modifiers :=
  { energy_boost := weather_mods.energy_boost * (6/10) + context_mods.energy_boost * (4/10)
    valence_boost := weather_mods.valence_boost * (6/10) + context_mods.valence_boost * (4/10)
    tempo_boost := weather_mods.tempo_boost * (6/10) + context_mods.tempo_boost * (4/10)
    acoustic_boost := weather_mods.acoustic_boost * (6/10) + context_mods.acoustic_boost * (4/10)
    danceability_boost := weather_mods.danceability_boost * (6/10) + context_mods.danceability_boost * (4/10) }

/-- An entry of a track's `artists` list; `genres` is read through
`'genres' in artist` / `artist['genres']`, hence optional. -/
structure Artist where
  genres : Option (List String)
deriving DecidableEq

/-- A track record as consumed by the engine.  Every key is read with
`song.get(key, default)` (or guarded by `key in song`), so each field is an
`Option`; `artists` defaults to the empty list.  The `score` key is what
`generate_queue` attaches to copies and `rescore_candidates` writes in
place. -/
structure Song where
  id : Option String
  name : Option String
  title : Option String
  artist : Option String
  genre : Option String
  tempo : Option ℚ
  energy : Option ℚ
  valence : Option ℚ
  acousticness : Option ℚ
  danceability : Option ℚ
  popularity : Option ℚ
  source : Option String
  artists : List Artist
  score : Option ℚ
deriving DecidableEq

/-- A track with no keys set: every read falls back to its documented
neutral default. -/
def emptySong : Song :=
  { id := none, name := none, title := none, artist := none, genre := none
    tempo := none, energy := none, valence := none, acousticness := none
    danceability := none, popularity := none, source := none
    artists := [], score := none }

/-- The preference profile built by
`WeatherAwareMusicEngine.learn_preferences` (lines 392–419) and consumed by
`calculate_song_score`; `genre_preferences` is a Python count dict read with
`.get(genre, 0)`, modelled as a total function; `playlist_genres` is the
optional key attached at line 1173 (absent key and empty list behave
identically, so it is modelled as a plain list). -/
structure Preferences where
  avg_tempo : ℚ
  avg_energy : ℚ
  avg_valence : ℚ
  avg_acousticness : ℚ
  avg_danceability : ℚ
  genre_preferences : String → ℚ
  total_songs : ℕ
  playlist_genres : List String

/-- The optional `parameter_weights` dictionary: each named knob is read
with `.get(name, default)`. -/
structure ParameterWeights where
  weather : Option ℚ
  genre : Option ℚ
  mood : Option ℚ
  energy : Option ℚ
  playlist : Option ℚ

/-- A `parameter_weights` dictionary with no knobs set (the `{}` that
`calculate_song_score` substitutes for `None`). -/
def emptyParameterWeights : ParameterWeights :=
  { weather := none, genre := none, mood := none, energy := none, playlist := none }

/-- The genre extraction done twice inside `calculate_song_score`
(lines 614–620 and 632–636): concatenate the `genres` of every artist that
has them. -/
def track_genres_of (song : Song) : List String :=
  song.artists.foldl (fun acc artist => acc ++ artist.genres.getD []) []

/-- One keyword test from the keyword-matching loop (lines 661–669):
case-insensitive substring match against the track's genre, title or
artist. -/
def keyword_matches (song : Song) (keyword : String) : Bool :=
  strIncl keyword.toLower (song.genre.getD ("")).toLower ||
  strIncl keyword.toLower (song.title.getD ("")).toLower ||
  strIncl keyword.toLower (song.artist.getD ("")).toLower

/-- `WeatherAwareMusicEngine.calculate_song_score` (lines 561–700),
translated term by term in source order; each `let score := score + …`
mirrors one `score += …` statement, and the Python loop with `break` in the
keyword block adds its bonus at most once (`List.any`). -/
def calculate_song_score (song : Song) (preferences : Preferences) (modifiers : Modifiers)
    (keywords : List String) (behavior_tracker : Option BehaviorState)
    (parameter_weights : Option ParameterWeights) : ℚ :=
  let score : ℚ := 0
  let pw := parameter_weights.getD emptyParameterWeights
  let weather_weight := pw.weather.getD 60 / 60
  let genre_weight := pw.genre.getD 100 / 100
  let mood_weight := pw.mood.getD 100 / 100
  let energy_weight := pw.energy.getD 100 / 100
  let playlist_weight := pw.playlist.getD 100 / 100
  let tempo_diff := |song.tempo.getD 120 - preferences.avg_tempo|
  let score := score + (1 - min (tempo_diff / 100) 1) * (12/100)
  let score := score + (1 - |song.energy.getD (1/2) - preferences.avg_energy|) * (4/100)
  let score := score + (1 - |song.valence.getD (1/2) - preferences.avg_valence|) * (8/100) * mood_weight
  let score := score + (1 - |song.acousticness.getD (1/2) - preferences.avg_acousticness|) * (3/100)
  let score := score + (1 - |song.danceability.getD (1/2) - preferences.avg_danceability|) * (3/100)
  let score :=
    match behavior_tracker with
    | some bt =>
      let track_genres := track_genres_of song
      let genre_modifier := get_genre_modifier bt track_genres
      let genre_contribution := (15/100 + genre_modifier) * genre_weight
      score + max 0 (min (65/100 * genre_weight) genre_contribution)
    | none =>
      let genre := song.genre.getD ("Unknown")
      let genre_score := preferences.genre_preferences genre / ((max preferences.total_songs 1 : ℕ) : ℚ)
      score + genre_score * (10/100)
  let score :=
    if preferences.playlist_genres ≠ [] then
      let track_genres := track_genres_of song
      let playlist_genres_set := preferences.playlist_genres.dedup
      let matching_genres := track_genres.dedup.filter (fun g => decide (g ∈ playlist_genres_set))
      if matching_genres ≠ [] then
        let genre_match_ratio :=
          min ((matching_genres.length : ℚ) / ((max playlist_genres_set.length 1 : ℕ) : ℚ)) 1
        score + genre_match_ratio * (10/100) * playlist_weight
      else score
    else score
  let energy := song.energy.getD (1/2)
  let valence := song.valence.getD (1/2)
  let tempo := song.tempo.getD 120
  let acousticness := song.acousticness.getD (1/2)
  let danceability := song.danceability.getD (1/2)
  let score :=
    if 1/5 < modifiers.energy_boost ∧ 7/10 < energy then
      score + (10/100) * energy_weight * weather_weight
    else if modifiers.energy_boost < -(1/5) ∧ energy < 2/5 then
      score + (10/100) * energy_weight * weather_weight
    else score
  let score :=
    if 1/5 < modifiers.valence_boost ∧ 7/10 < valence then
      score + (8/100) * weather_weight
    else if modifiers.valence_boost < -(1/5) ∧ valence < 2/5 then
      score + (8/100) * weather_weight
    else score
  let score :=
    if 1/5 < modifiers.tempo_boost ∧ 130 < tempo then
      score + (7/100) * weather_weight
    else if modifiers.tempo_boost < -(1/10) ∧ tempo < 100 then
      score + (7/100) * weather_weight
    else score
  let score :=
    if 3/10 < modifiers.acoustic_boost ∧ 6/10 < acousticness then
      score + (8/100) * weather_weight
    else score
  let score :=
    if 3/10 < modifiers.danceability_boost ∧ 7/10 < danceability then
      score + (8/100) * weather_weight
    else score
  let score :=
    if keywords.any (fun keyword => !(keyword == "") && keyword_matches song keyword) then
      score + 10/100
    else score
  let popularity := song.popularity.getD 50
  let score := score + popularity / 100 * (5/100)
  let score := if song.source = some ("country_top") then score + 7/100 else score
  min score (157/100)

/-- `WeatherAwareMusicEngine.learn_preferences` (lines 392–419): unweighted
means of the audio descriptors (with neutral defaults for missing keys) and
a genre frequency histogram; returns `{}` on empty input (modelled as
`none`). -/
def learn_preferences (tracks : List Song) : Option Preferences :=
  if tracks = [] then none
  else
    let total := tracks.length
    some
      { avg_tempo := (tracks.map (fun t => t.tempo.getD 120)).sum / (total : ℚ)
        avg_energy := (tracks.map (fun t => t.energy.getD (1/2))).sum / (total : ℚ)
        avg_valence := (tracks.map (fun t => t.valence.getD (1/2))).sum / (total : ℚ)
        avg_acousticness := (tracks.map (fun t => t.acousticness.getD (1/2))).sum / (total : ℚ)
        avg_danceability := (tracks.map (fun t => t.danceability.getD (1/2))).sum / (total : ℚ)
        genre_preferences := fun g => ((tracks.filter (fun t => decide (t.genre.getD ("Unknown") = g))).length : ℚ)
        total_songs := total
        playlist_genres := [] }

/-- Stable insertion into a list sorted by descending `score` (the element
goes after every element with a greater-or-equal score), mirroring the
stability of Python's `list.sort(key=…, reverse=True)`.  `x['score']` is
read as `score.getD 0`, matching `x.get('score', 0)` used at re-scoring. -/
def insert_by_score (x : Song) : List Song → List Song
  | [] => [x]
  | y :: ys => if y.score.getD 0 < x.score.getD 0 then x :: y :: ys else y :: insert_by_score x ys

/-- `scored_songs.sort(key=lambda x: x['score'], reverse=True)`: a stable
descending sort by score. -/
def sort_by_score_desc (l : List Song) : List Song :=
  l.foldl (fun acc x => insert_by_score x acc) []

/-- The deterministic part of `WeatherAwareMusicEngine.generate_queue`
(lines 702–737): score every track against the combined weather/context
modifiers, attach each score to a copy of the track
(`{**song, 'score': score}`), sort descending, and keep the top
`min(20, len(scored_songs))` songs. -/
def top_k_by_score (tracks : List Song) (prefs : Preferences) (weather : Weather)
    (context : Context) (keywords : List String) (behavior_tracker : Option BehaviorState)
    (parameter_weights : Option ParameterWeights) : List Song :=
  let weather_mods := get_weather_modifiers weather
  let context_mods := get_context_modifiers context
  let combined_mods := combine_modifiers weather_mods context_mods
  let scored_songs := tracks.map (fun song =>
    { song with score := some (calculate_song_score song prefs combined_mods keywords
        behavior_tracker parameter_weights) })
  let sorted_songs := sort_by_score_desc scored_songs
  sorted_songs.take (min 20 sorted_songs.length)

/-- `WeatherAwareMusicEngine.generate_queue` (lines 702–745): empty result
when `tracks` or `preferences` is falsy, otherwise `random.shuffle` the
top-K pool and truncate to `queue_size`.  The nondeterministic
`random.shuffle` is an explicit `shuffle` parameter; theorems assume only
that it permutes its input. -/
def generate_queue (tracks : List Song) (preferences : Option Preferences) (weather : Weather)
    (context : Context) (keywords : List String) (queue_size : ℕ)
    (behavior_tracker : Option BehaviorState) (parameter_weights : Option ParameterWeights)
    (shuffle : List Song → List Song) : List Song :=
  if tracks = [] ∨ preferences.isNone then []
  else
    match preferences with
    | none => []
    | some prefs =>
      let top_songs := top_k_by_score tracks prefs weather context keywords
        behavior_tracker parameter_weights
      (shuffle top_songs).take queue_size

/-- The candidate pool built by `generate_recommendations`
(lines 1204–1206): the input tracks whose `id` is not among the ids of the
selected recommendations. -/
def candidate_pool (all_candidate_tracks recommendations : List Song) : List Song :=
  let selected_ids := recommendations.map (fun r => r.id)
  all_candidate_tracks.filter (fun t => decide (t.id ∉ selected_ids))

/-- The scoring loop of `rescore_candidates` (lines 1299–1310): every
candidate is scored against the stored preferences and weather modifiers
(`track['score'] = score`). -/
def rescore_scored_candidates (candidates : List Song) (preferences : Preferences)
    (weather : Weather) (keywords : List String) (behavior_tracker : BehaviorState)
    (parameter_weights : Option ParameterWeights) : List Song :=
  let modifiers := get_weather_modifiers weather
  candidates.map (fun track =>
    { track with score := some (calculate_song_score track preferences modifiers keywords
        (some behavior_tracker) parameter_weights) })

/-- State of the caller's `candidates` list after the `rescore_candidates`
scoring loop.  The loop executes `track['score'] = score` on each element:
it writes into the very dict objects the caller's list holds (no copy is
made), so after the call the caller's list contains the scored records. -/
def rescore_candidates_post (candidates : List Song) (preferences : Preferences)
    (weather : Weather) (keywords : List String) (behavior_tracker : BehaviorState)
    (parameter_weights : Option ParameterWeights) : List Song :=
  rescore_scored_candidates candidates preferences weather keywords behavior_tracker
    parameter_weights

/-- State of the caller's `tracks` list after `generate_queue`.  The scoring
loop there builds `{**song, 'score': score}` — a fresh dict per song — and
never assigns into `song`, so the caller's list and its elements are exactly
as passed in. -/
def generate_queue_tracks_post (tracks : List Song) : List Song :=
  tracks

/-- The documented ranges of a track's audio descriptors (spec §2: energy,
valence, acousticness, danceability in `[0,1]`, popularity in `[0,100]`),
imposed on the values the scorer actually reads (missing keys fall back to
in-range neutral defaults). -/
def DescriptorsInRange (song : Song) : Prop :=
  0 ≤ song.energy.getD (1/2) ∧ song.energy.getD (1/2) ≤ 1 ∧
  0 ≤ song.valence.getD (1/2) ∧ song.valence.getD (1/2) ≤ 1 ∧
  0 ≤ song.acousticness.getD (1/2) ∧ song.acousticness.getD (1/2) ≤ 1 ∧
  0 ≤ song.danceability.getD (1/2) ∧ song.danceability.getD (1/2) ≤ 1 ∧
  0 ≤ song.popularity.getD 50 ∧ song.popularity.getD 50 ≤ 100

/-- What a non-empty preference profile guarantees (spec §4.2): descriptor
means in `[0,1]` (they are means of `[0,1]` descriptors) and a nonnegative
genre histogram. -/
def ValidPreferences (p : Preferences) : Prop :=
  0 ≤ p.avg_energy ∧ p.avg_energy ≤ 1 ∧
  0 ≤ p.avg_valence ∧ p.avg_valence ≤ 1 ∧
  0 ≤ p.avg_acousticness ∧ p.avg_acousticness ≤ 1 ∧
  0 ≤ p.avg_danceability ∧ p.avg_danceability ≤ 1 ∧
  ∀ g, 0 ≤ p.genre_preferences g

/-- Nonnegative weight knobs (the default configuration — all knobs absent —
satisfies this). -/
def WeightsNonneg (pw : ParameterWeights) : Prop :=
  0 ≤ pw.weather.getD 60 ∧ 0 ≤ pw.genre.getD 100 ∧ 0 ≤ pw.mood.getD 100 ∧
  0 ≤ pw.energy.getD 100 ∧ 0 ≤ pw.playlist.getD 100

/-- A neutral preference profile (all means at their neutral defaults),
used to instantiate universally quantified theorems at a concrete input. -/
def neutralPreferences : Preferences :=
  { avg_tempo := 120, avg_energy := 1/2, avg_valence := 1/2
    avg_acousticness := 1/2, avg_danceability := 1/2
    genre_preferences := fun _ => 0, total_songs := 1, playlist_genres := [] }

/-- A context dictionary with no keys set. -/
def emptyContext : Context :=
  { activity := none, timeOfDay := none }

/-! ### Helper lemmas about the behavior tracker -/

theorem lastN_length_le {α : Type} (l : List α) (n : ℕ) : (lastN l n).length ≤ n := by
  simp only [lastN, List.length_drop]
  omega

theorem record_listening_event_eq (s : BehaviorState) (tid : String) (genres : List String)
    (c : ℚ) :
    record_listening_event s tid genres c
      = genres.foldl (genre_score_step c)
          (if c < s.skip_threshold then
            adjust_skip_threshold
              { s with listening_history := s.listening_history ++ [⟨tid, genres, c⟩]
                       skip_history := s.skip_history ++ [c] }
          else { s with listening_history := s.listening_history ++ [⟨tid, genres, c⟩] }) := rfl

theorem foldl_step_skip_threshold (c : ℚ) (genres : List String) :
    ∀ st : BehaviorState, (genres.foldl (genre_score_step c) st).skip_threshold = st.skip_threshold := by
  induction genres with
  | nil => intro st; rfl
  | cons a l ih => intro st; rw [List.foldl_cons, ih]; rfl

theorem foldl_step_skip_history (c : ℚ) (genres : List String) :
    ∀ st : BehaviorState, (genres.foldl (genre_score_step c) st).skip_history = st.skip_history := by
  induction genres with
  | nil => intro st; rfl
  | cons a l ih => intro st; rw [List.foldl_cons, ih]; rfl

theorem foldl_step_listening_history (c : ℚ) (genres : List String) :
    ∀ st : BehaviorState,
      (genres.foldl (genre_score_step c) st).listening_history = st.listening_history := by
  induction genres with
  | nil => intro st; rfl
  | cons a l ih => intro st; rw [List.foldl_cons, ih]; rfl

theorem foldl_step_count_zero (c : ℚ) (genres : List String) (g : String) :
    ∀ st : BehaviorState, genres.count g = 0 →
      (genres.foldl (genre_score_step c) st).genre_scores g = st.genre_scores g := by
  induction genres with
  | nil => intro st _; rfl
  | cons a l ih =>
    intro st h
    by_cases hag : g = a
    · exfalso
      subst hag
      simp [List.count_cons] at h
    · have hl : l.count g = 0 := by
        rw [List.count_cons] at h
        omega
      rw [List.foldl_cons, ih _ hl]
      simp only [genre_score_step]
      exact Function.update_noteq hag _ _

theorem foldl_step_count_one (c : ℚ) (genres : List String) (g : String) :
    ∀ st : BehaviorState, genres.count g = 1 →
      (genres.foldl (genre_score_step c) st).genre_scores g
        = max (-1) (min 1 (st.genre_scores g + genreDelta st.skip_threshold c)) := by
  induction genres with
  | nil => intro st h; simp at h
  | cons a l ih =>
    intro st h
    rw [List.foldl_cons]
    by_cases hag : g = a
    · subst hag
      have hl : l.count g = 0 := by
        rw [List.count_cons] at h
        simp at h
        omega
      rw [foldl_step_count_zero c l g _ hl]
      simp only [genre_score_step, Function.update_same, genreDelta]
      split_ifs <;> ring_nf
    · have hl : l.count g = 1 := by
        rw [List.count_cons] at h
        have hne : (a == g) = false := by
          simp only [beq_eq_false_iff_ne]
          exact fun hh => hag hh.symm
        rw [hne] at h
        simp at h
        omega
      rw [ih _ hl]
      have hng : (genre_score_step c st a).genre_scores g = st.genre_scores g := by
        simp only [genre_score_step]
        exact Function.update_noteq hag _ _
      have hnt : (genre_score_step c st a).skip_threshold = st.skip_threshold := rfl
      rw [hng, hnt]

theorem adjust_skip_threshold_spec (s : BehaviorState) :
    (adjust_skip_threshold s).skip_history = s.skip_history
    ∧ (adjust_skip_threshold s).genre_scores = s.genre_scores
    ∧ (adjust_skip_threshold s).listening_history = s.listening_history
    ∧ ((adjust_skip_threshold s).skip_threshold = s.skip_threshold
       ∨ (5 ≤ s.skip_history.length
          ∧ (adjust_skip_threshold s).skip_threshold
              = min (4/5) (max (1/5)
                  ((lastN s.skip_history 20).sum / ((lastN s.skip_history 20).length : ℚ) + 1/10))
          ∧ 1/20 < |(adjust_skip_threshold s).skip_threshold - s.skip_threshold|)) := by
  simp only [adjust_skip_threshold]
  split_ifs with h1 h2
  · exact ⟨rfl, rfl, rfl, Or.inl rfl⟩
  · exact ⟨rfl, rfl, rfl, Or.inr ⟨by omega, rfl, h2⟩⟩
  · exact ⟨rfl, rfl, rfl, Or.inl rfl⟩

theorem record_spec (s : BehaviorState) (tid : String) (genres : List String) (c : ℚ) :
    (record_listening_event s tid genres c).listening_history
        = s.listening_history ++ [⟨tid, genres, c⟩]
    ∧ (record_listening_event s tid genres c).skip_history
        = (if c < s.skip_threshold then s.skip_history ++ [c] else s.skip_history)
    ∧ ((record_listening_event s tid genres c).skip_threshold = s.skip_threshold
       ∨ (c < s.skip_threshold
          ∧ 5 ≤ (record_listening_event s tid genres c).skip_history.length
          ∧ (record_listening_event s tid genres c).skip_threshold
              = min (4/5) (max (1/5)
                  ((lastN (record_listening_event s tid genres c).skip_history 20).sum
                    / ((lastN (record_listening_event s tid genres c).skip_history 20).length : ℚ) + 1/10))
          ∧ 1/20 < |(record_listening_event s tid genres c).skip_threshold - s.skip_threshold|)) := by
  rw [record_listening_event_eq]
  split_ifs with hsk
  · obtain ⟨hh, hg, hl, hthr⟩ := adjust_skip_threshold_spec
      { s with listening_history := s.listening_history ++ [⟨tid, genres, c⟩]
               skip_history := s.skip_history ++ [c] }
    rw [foldl_step_listening_history, foldl_step_skip_history, foldl_step_skip_threshold, hh, hl]
    refine ⟨rfl, rfl, ?_⟩
    rcases hthr with h | ⟨hlen, heq, hgt⟩
    · exact Or.inl h
    · exact Or.inr ⟨hsk, hlen, by rw [heq], hgt⟩
  · rw [foldl_step_listening_history, foldl_step_skip_history, foldl_step_skip_threshold]
    exact ⟨rfl, rfl, Or.inl rfl⟩

theorem adjust_threshold_range (s : BehaviorState)
    (h : 1/5 ≤ s.skip_threshold ∧ s.skip_threshold ≤ 4/5) :
    1/5 ≤ (adjust_skip_threshold s).skip_threshold
    ∧ (adjust_skip_threshold s).skip_threshold ≤ 4/5 := by
  simp only [adjust_skip_threshold]
  split_ifs
  · exact h
  · constructor
    · exact le_min (by norm_num) (le_max_left _ _)
    · exact min_le_left _ _
  · exact h

theorem record_threshold_range (s : BehaviorState) (tid : String) (genres : List String) (c : ℚ)
    (h : 1/5 ≤ s.skip_threshold ∧ s.skip_threshold ≤ 4/5) :
    1/5 ≤ (record_listening_event s tid genres c).skip_threshold
    ∧ (record_listening_event s tid genres c).skip_threshold ≤ 4/5 := by
  rw [record_listening_event_eq]
  split_ifs with hsk
  · rw [foldl_step_skip_threshold]
    exact adjust_threshold_range _ h
  · rw [foldl_step_skip_threshold]
    exact h

theorem applyEvents_threshold_range (evs : List ListeningEvent) :
    ∀ s : BehaviorState, 1/5 ≤ s.skip_threshold ∧ s.skip_threshold ≤ 4/5 →
      1/5 ≤ (applyEvents s evs).skip_threshold ∧ (applyEvents s evs).skip_threshold ≤ 4/5 := by
  induction evs with
  | nil => intro s h; exact h
  | cons e rest ih =>
    intro s h
    exact ih _ (record_threshold_range s e.track_id e.genres e.completion h)

theorem foldl_step_genre_range (c : ℚ) (genres : List String) :
    ∀ st : BehaviorState, (∀ g, -1 ≤ st.genre_scores g ∧ st.genre_scores g ≤ 1) →
      ∀ g, -1 ≤ (genres.foldl (genre_score_step c) st).genre_scores g
        ∧ (genres.foldl (genre_score_step c) st).genre_scores g ≤ 1 := by
  induction genres with
  | nil => intro st h; exact h
  | cons a l ih =>
    intro st h
    rw [List.foldl_cons]
    refine ih _ ?_
    intro g
    by_cases hag : g = a
    · subst hag
      simp only [genre_score_step, Function.update_same]
      constructor
      · exact le_max_left _ _
      · exact max_le (by norm_num) (min_le_left _ _)
    · have hng : (genre_score_step c st a).genre_scores g = st.genre_scores g := by
        simp only [genre_score_step]
        exact Function.update_noteq hag _ _
      rw [hng]
      exact h g

theorem record_genre_range (s : BehaviorState) (tid : String) (genres : List String) (c : ℚ)
    (h : ∀ g, -1 ≤ s.genre_scores g ∧ s.genre_scores g ≤ 1) :
    ∀ g, -1 ≤ (record_listening_event s tid genres c).genre_scores g
      ∧ (record_listening_event s tid genres c).genre_scores g ≤ 1 := by
  rw [record_listening_event_eq]
  split_ifs with hsk
  · obtain ⟨_, hg, _, _⟩ := adjust_skip_threshold_spec
      { s with listening_history := s.listening_history ++ [⟨tid, genres, c⟩]
               skip_history := s.skip_history ++ [c] }
    refine foldl_step_genre_range c genres _ ?_
    intro g
    rw [hg]
    exact h g
  · exact foldl_step_genre_range c genres _ h

theorem applyEvents_genre_range (evs : List ListeningEvent) :
    ∀ s : BehaviorState, (∀ g, -1 ≤ s.genre_scores g ∧ s.genre_scores g ≤ 1) →
      ∀ g, -1 ≤ (applyEvents s evs).genre_scores g ∧ (applyEvents s evs).genre_scores g ≤ 1 := by
  induction evs with
  | nil => intro s h; exact h
  | cons e rest ih =>
    intro s h
    exact ih _ (record_genre_range s e.track_id e.genres e.completion h)

theorem sum_map_genre_bounds (f : String → ℚ) (h : ∀ g, -1 ≤ f g ∧ f g ≤ 1) :
    ∀ l : List String, -(l.length : ℚ) ≤ (l.map f).sum ∧ (l.map f).sum ≤ (l.length : ℚ) := by
  intro l
  induction l with
  | nil => simp
  | cons a t ih =>
    simp only [List.map_cons, List.sum_cons, List.length_cons]
    push_cast
    obtain ⟨h1, h2⟩ := h a
    obtain ⟨h3, h4⟩ := ih
    constructor <;> linarith

theorem get_genre_modifier_range (s : BehaviorState)
    (h : ∀ g, -1 ≤ s.genre_scores g ∧ s.genre_scores g ≤ 1) (genres : List String) :
    -(1/2) ≤ get_genre_modifier s genres ∧ get_genre_modifier s genres ≤ 1/2 := by
  simp only [get_genre_modifier]
  split_ifs with he
  · norm_num
  · have hlen : 0 < (genres.length : ℚ) := by
      have : genres.length ≠ 0 := fun hz => he (List.eq_nil_of_length_eq_zero hz)
      exact_mod_cast Nat.pos_of_ne_zero this
    obtain ⟨h1, h2⟩ := sum_map_genre_bounds s.genre_scores h genres
    have hle : (genres.map s.genre_scores).sum / (genres.length : ℚ) ≤ 1 := by
      rw [div_le_one hlen]
      exact h2
    have hge : -1 ≤ (genres.map s.genre_scores).sum / (genres.length : ℚ) := by
      rw [le_div_iff₀ hlen]
      linarith
    constructor <;> nlinarith

/-! ### Claims about the behavior tracker -/

/-- C3: starting from the default tracker state, the skip threshold stays in
`[0.20, 0.80]` along every sequence of `record_listening_event` calls; one
further event leaves it unchanged whenever fewer than 5 skip samples have
been recorded, and whenever it does change, the new value is
`clamp(mean(last ≤ 20 skip fractions) + 0.10, 0.20, 0.80)` and differs from
the previous threshold by more than `0.05`. -/
theorem skip_threshold_dynamics (evs : List ListeningEvent) :
    let s := applyEvents initBehaviorState evs
    (1/5 ≤ s.skip_threshold ∧ s.skip_threshold ≤ 4/5)
    ∧ ∀ e : ListeningEvent,
        ((record_listening_event s e.track_id e.genres e.completion).skip_history.length < 5 →
          (record_listening_event s e.track_id e.genres e.completion).skip_threshold
            = s.skip_threshold)
        ∧ ((record_listening_event s e.track_id e.genres e.completion).skip_threshold
              ≠ s.skip_threshold →
            (record_listening_event s e.track_id e.genres e.completion).skip_threshold
              = min (4/5) (max (1/5)
                  ((lastN (record_listening_event s e.track_id e.genres e.completion).skip_history 20).sum
                    / ((lastN (record_listening_event s e.track_id e.genres e.completion).skip_history 20).length : ℚ)
                    + 1/10))
            ∧ 1/20 < |(record_listening_event s e.track_id e.genres e.completion).skip_threshold
                - s.skip_threshold|) := by
  intro s
  refine ⟨applyEvents_threshold_range evs initBehaviorState (by norm_num [initBehaviorState]), ?_⟩
  intro e
  obtain ⟨hl, hh, hthr⟩ := record_spec s e.track_id e.genres e.completion
  constructor
  · intro hlen
    rcases hthr with h | ⟨_, h5, _, _⟩
    · exact h
    · exact absurd h5 (by omega)
  · intro hne
    rcases hthr with h | ⟨_, _, heq, hgt⟩
    · exact absurd h hne
    · exact ⟨heq, hgt⟩

/-- Witness for C3 at a concrete input: one skipped event on the fresh
tracker leaves the threshold unchanged (only 1 skip sample exists). -/
theorem skip_threshold_dynamics_witness :
    (record_listening_event (applyEvents initBehaviorState []) ("t") [("a")] (1/10)).skip_threshold
      = (applyEvents initBehaviorState []).skip_threshold := by
  have h := skip_threshold_dynamics []
  refine (h.2 ⟨"t", ["a"], 1/10⟩).1 ?_
  show (record_listening_event (applyEvents initBehaviorState []) ("t") [("a")] (1/10)).skip_history.length < 5
  rw [(record_spec (applyEvents initBehaviorState []) ("t") [("a")] (1/10)).2.1]
  norm_num [applyEvents, initBehaviorState]

/-- C10: the two divisors of the genre-update branches — the skip threshold
and `1 - skip_threshold` — are bounded away from zero in every tracker state
reachable from the default by `record_listening_event` calls, including the
threshold actually in force during the genre loop of a further event. -/
theorem record_event_division_safe (evs : List ListeningEvent) :
    let s := applyEvents initBehaviorState evs
    (1/5 ≤ s.skip_threshold ∧ s.skip_threshold ≤ 4/5)
    ∧ s.skip_threshold ≠ 0 ∧ 1 - s.skip_threshold ≠ 0
    ∧ ∀ e : ListeningEvent,
        (record_listening_event s e.track_id e.genres e.completion).skip_threshold ≠ 0
        ∧ 1 - (record_listening_event s e.track_id e.genres e.completion).skip_threshold ≠ 0 := by
  intro s
  have hr := applyEvents_threshold_range evs initBehaviorState (by norm_num [initBehaviorState])
  refine ⟨hr, ne_of_gt (by linarith [hr.1]), ne_of_gt (by linarith [hr.2]), ?_⟩
  intro e
  have he := record_threshold_range s e.track_id e.genres e.completion hr
  exact ⟨ne_of_gt (by linarith [he.1]), ne_of_gt (by linarith [he.2])⟩

/-- Witness for C10 at the empty event sequence. -/
theorem record_event_division_safe_witness :
    (applyEvents initBehaviorState []).skip_threshold ≠ 0
    ∧ 1 - (applyEvents initBehaviorState []).skip_threshold ≠ 0 := by
  have h := record_event_division_safe []
  exact ⟨h.2.1, h.2.2.1⟩

/-- C5: after any sequence of `record_listening_event` calls from the
default state, every genre affinity lies in `[-1, 1]`, `get_genre_modifier`
always returns a value in `[-0.5, 0.5]`, and it returns exactly `0` on the
empty genre list. -/
theorem genre_state_bounds (evs : List ListeningEvent) :
    let s := applyEvents initBehaviorState evs
    (∀ g, -1 ≤ s.genre_scores g ∧ s.genre_scores g ≤ 1)
    ∧ (∀ genres, -(1/2) ≤ get_genre_modifier s genres ∧ get_genre_modifier s genres ≤ 1/2)
    ∧ get_genre_modifier s [] = 0 := by
  intro s
  have hg := applyEvents_genre_range evs initBehaviorState (fun g => by norm_num [initBehaviorState])
  exact ⟨hg, fun genres => get_genre_modifier_range _ hg genres, rfl⟩

/-- C4: one `record_listening_event` adjusts each genre occurring once in
the track's tag list by exactly `genreDelta` (flat `+0.20` at completion
`≥ 0.90`, graded bonus `(c-t)/(1-t)·0.15` at `t ≤ c < 0.90`, graded penalty
`-(t-c)/t·0.20` below `t`, where `t` is the skip threshold in force during
the genre loop, i.e. after any skip-triggered re-adjustment) before
clamping to `[-1,1]`; in particular a `0.95`-completion event on a track
tagged `["jazz"]` moves `genre_scores["jazz"]` from `0.0` to exactly
`0.20`. -/
theorem record_event_genre_adjustment :
    (∀ (s : BehaviorState) (tid : String) (genres : List String) (c : ℚ) (g : String),
        genres.count g = 1 →
        (record_listening_event s tid genres c).genre_scores g
          = max (-1) (min 1 (s.genre_scores g
              + genreDelta (record_listening_event s tid genres c).skip_threshold c)))
    ∧ (record_listening_event initBehaviorState ("t") [("jazz")] (19/20)).genre_scores ("jazz")
        = 1/5 := by
  constructor
  · intro s tid genres c g hcount
    rw [record_listening_event_eq]
    split_ifs with hsk
    · obtain ⟨hh, hg, hl, hthr⟩ := adjust_skip_threshold_spec
        { s with listening_history := s.listening_history ++ [⟨tid, genres, c⟩]
                 skip_history := s.skip_history ++ [c] }
      rw [foldl_step_count_one c genres g _ hcount, foldl_step_skip_threshold, hg]
    · rw [foldl_step_count_one c genres g _ hcount, foldl_step_skip_threshold]
  · rw [record_listening_event_eq, if_neg (by norm_num [initBehaviorState])]
    rw [foldl_step_count_one (19/20) [("jazz")] ("jazz") _ (by decide)]
    norm_num [initBehaviorState, genreDelta, min_def, max_def]

/-- Witness for C4 at a concrete input. -/
theorem record_event_genre_adjustment_witness :
    (record_listening_event initBehaviorState ("w") [("rock")] (1/2)).genre_scores ("rock")
      = max (-1) (min 1 (initBehaviorState.genre_scores ("rock")
          + genreDelta (record_listening_event initBehaviorState ("w") [("rock")] (1/2)).skip_threshold (1/2))) :=
  record_event_genre_adjustment.1 initBehaviorState ("w") [("rock")] (1/2) ("rock") (by decide)

/-- C7 helper: one `/api/behavior/track` round trip leaves the persisted
histories within their caps, whatever the incoming session held. -/
theorem applyRequests_bounded (reqs : List ListeningEvent) :
    ∀ d : SessionBehaviorData, d.skip_history.length ≤ 50 → d.listening_history.length ≤ 100 →
      (applyRequests d reqs).skip_history.length ≤ 50
      ∧ (applyRequests d reqs).listening_history.length ≤ 100 := by
  induction reqs with
  | nil => intro d h1 h2; exact ⟨h1, h2⟩
  | cons e rest ih =>
    intro d h1 h2
    refine ih _ ?_ ?_
    · show (lastN _ 50).length ≤ 50
      exact lastN_length_le _ _
    · show (lastN _ 100).length ≤ 100
      exact lastN_length_le _ _

/-- C7: across any sequence of recorded listening events (each event is
recorded through the `/api/behavior/track` cycle, which saves the tracker
back to the session and silently drops old entries), the persisted
skip-completion history never exceeds 50 entries and the persisted
listening-event history never exceeds 100. -/
theorem behavior_histories_bounded (reqs : List ListeningEvent) :
    (applyRequests initSessionData reqs).skip_history.length ≤ 50
    ∧ (applyRequests initSessionData reqs).listening_history.length ≤ 100 :=
  applyRequests_bounded reqs initSessionData (by simp [initSessionData]) (by simp [initSessionData])

/-! ### Helper lemmas for the score bound -/

theorem nonneg_ite_add {c : Prop} [Decidable c] {s a : ℚ} (hs : 0 ≤ s) (ha : 0 ≤ a) :
    0 ≤ if c then s + a else s := by
  split_ifs
  · linarith
  · exact hs

theorem nonneg_ite_add2 {c d : Prop} [Decidable c] [Decidable d] {s a b : ℚ}
    (hs : 0 ≤ s) (ha : 0 ≤ a) (hb : 0 ≤ b) :
    0 ≤ if c then s + a else if d then s + b else s := by
  split_ifs <;> linarith

theorem nonneg_ite_nested {c d : Prop} [Decidable c] [Decidable d] {s r : ℚ}
    (hs : 0 ≤ s) (hr : 0 ≤ r) :
    0 ≤ if c then (if d then s + r else s) else s := by
  split_ifs <;> linarith

/-! ### Claims about the modifier pipeline -/

/-- C6: for arbitrary weather and context modifier vectors over the five
keys, `combine_modifiers` returns the vector (with the same key set, being
the same structure type) whose every entry is exactly
`weather[k]*0.6 + context[k]*0.4`. -/
theorem combine_modifiers_blend (w c : Modifiers) :
    (combine_modifiers w c).energy_boost = w.energy_boost * (6/10) + c.energy_boost * (4/10)
    ∧ (combine_modifiers w c).valence_boost = w.valence_boost * (6/10) + c.valence_boost * (4/10)
    ∧ (combine_modifiers w c).tempo_boost = w.tempo_boost * (6/10) + c.tempo_boost * (4/10)
    ∧ (combine_modifiers w c).acoustic_boost = w.acoustic_boost * (6/10) + c.acoustic_boost * (4/10)
    ∧ (combine_modifiers w c).danceability_boost
        = w.danceability_boost * (6/10) + c.danceability_boost * (4/10) :=
  ⟨rfl, rfl, rfl, rfl, rfl⟩

/-- C8: a context whose (defaulted) activity label is none of the six
recognized activities and whose (defaulted) time-of-day label is none of
morning/afternoon/evening/night yields the neutral all-zero modifier
vector. -/
theorem unknown_labels_neutral (context : Context)
    (ha : context.activity.getD ("relaxing")
      ∉ [("working out"), ("relaxing"), ("focusing"), ("party"), ("commuting"), ("studying")])
    (ht : context.timeOfDay.getD ("afternoon")
      ∉ [("morning"), ("afternoon"), ("evening"), ("night")]) :
    get_context_modifiers context = zeroModifiers := by
  have h1 : context.activity.getD ("relaxing") ≠ "working out" := fun h => ha (by rw [h]; decide)
  have h2 : context.activity.getD ("relaxing") ≠ "relaxing" := fun h => ha (by rw [h]; decide)
  have h3 : context.activity.getD ("relaxing") ≠ "focusing" := fun h => ha (by rw [h]; decide)
  have h4 : context.activity.getD ("relaxing") ≠ "party" := fun h => ha (by rw [h]; decide)
  have h5 : context.activity.getD ("relaxing") ≠ "commuting" := fun h => ha (by rw [h]; decide)
  have h6 : context.activity.getD ("relaxing") ≠ "studying" := fun h => ha (by rw [h]; decide)
  have t1 : context.timeOfDay.getD ("afternoon") ≠ "morning" := fun h => ht (by rw [h]; decide)
  have t2 : context.timeOfDay.getD ("afternoon") ≠ "afternoon" := fun h => ht (by rw [h]; decide)
  have t3 : context.timeOfDay.getD ("afternoon") ≠ "evening" := fun h => ht (by rw [h]; decide)
  have t4 : context.timeOfDay.getD ("afternoon") ≠ "night" := fun h => ht (by rw [h]; decide)
  simp only [get_context_modifiers]
  rw [if_neg h1, if_neg h2, if_neg h3, if_neg h4, if_neg h5, if_neg h6,
      if_neg t1, if_neg t2, if_neg t3, if_neg t4]

/-- Witness for C8: an unrecognized activity/time pair. -/
theorem unknown_labels_neutral_witness :
    get_context_modifiers { activity := some ("gardening"), timeOfDay := some ("dusk") }
      = zeroModifiers :=
  unknown_labels_neutral _ (by decide) (by decide)

/-! ### Claims about the scoring engine -/

/-- C1: for every track whose audio descriptors lie in their documented
ranges, every valid (non-empty) preference profile, and any modifier
vector, keyword list, tracker state and nonnegative weight configuration,
`calculate_song_score` is never negative and never exceeds the documented
ceiling `1.57`. -/
theorem calculate_song_score_bounds (song : Song) (preferences : Preferences)
    (modifiers : Modifiers) (keywords : List String) (behavior_tracker : Option BehaviorState)
    (parameter_weights : Option ParameterWeights)
    (hs : DescriptorsInRange song) (hp : ValidPreferences preferences)
    (hw : WeightsNonneg (parameter_weights.getD emptyParameterWeights)) :
    0 ≤ calculate_song_score song preferences modifiers keywords behavior_tracker parameter_weights
    ∧ calculate_song_score song preferences modifiers keywords behavior_tracker parameter_weights
        ≤ 157/100 := by
  obtain ⟨he1, he2, hv1, hv2, ha1, ha2, hd1, hd2, hq1, hq2⟩ := hs
  obtain ⟨hpe1, hpe2, hpv1, hpv2, hpa1, hpa2, hpd1, hpd2, hpg⟩ := hp
  obtain ⟨hww, hwg, hwm, hwe, hwp⟩ := hw
  have hW : (0:ℚ) ≤ (parameter_weights.getD emptyParameterWeights).weather.getD 60 / 60 :=
    div_nonneg hww (by norm_num)
  have hM : (0:ℚ) ≤ (parameter_weights.getD emptyParameterWeights).mood.getD 100 / 100 :=
    div_nonneg hwm (by norm_num)
  have hE : (0:ℚ) ≤ (parameter_weights.getD emptyParameterWeights).energy.getD 100 / 100 :=
    div_nonneg hwe (by norm_num)
  have hP : (0:ℚ) ≤ (parameter_weights.getD emptyParameterWeights).playlist.getD 100 / 100 :=
    div_nonneg hwp (by norm_num)
  have hde : |song.energy.getD (1/2) - preferences.avg_energy| ≤ 1 :=
    abs_le.mpr ⟨by linarith, by linarith⟩
  have hdv : |song.valence.getD (1/2) - preferences.avg_valence| ≤ 1 :=
    abs_le.mpr ⟨by linarith, by linarith⟩
  have hda : |song.acousticness.getD (1/2) - preferences.avg_acousticness| ≤ 1 :=
    abs_le.mpr ⟨by linarith, by linarith⟩
  have hdd : |song.danceability.getD (1/2) - preferences.avg_danceability| ≤ 1 :=
    abs_le.mpr ⟨by linarith, by linarith⟩
  constructor
  · rcases behavior_tracker with _ | bt
    · simp only [calculate_song_score]
      refine le_min ?_ (by norm_num)
      refine nonneg_ite_add ?_ (by norm_num)
      refine add_nonneg ?_ (mul_nonneg (div_nonneg hq1 (by norm_num)) (by norm_num))
      refine nonneg_ite_add ?_ (by norm_num)
      refine nonneg_ite_add ?_ (mul_nonneg (by norm_num) hW)
      refine nonneg_ite_add ?_ (mul_nonneg (by norm_num) hW)
      refine nonneg_ite_add2 ?_ (mul_nonneg (by norm_num) hW) (mul_nonneg (by norm_num) hW)
      refine nonneg_ite_add2 ?_ (mul_nonneg (by norm_num) hW) (mul_nonneg (by norm_num) hW)
      refine nonneg_ite_add2 ?_ (mul_nonneg (mul_nonneg (by norm_num) hE) hW)
        (mul_nonneg (mul_nonneg (by norm_num) hE) hW)
      refine nonneg_ite_nested ?_
        (mul_nonneg (mul_nonneg
          (le_min (div_nonneg (Nat.cast_nonneg _) (Nat.cast_nonneg _)) (by norm_num))
          (by norm_num)) hP)
      refine add_nonneg ?_ (mul_nonneg (div_nonneg (hpg _) (Nat.cast_nonneg _)) (by norm_num))
      refine add_nonneg (add_nonneg (add_nonneg (add_nonneg (add_nonneg (le_refl 0)
        (mul_nonneg (sub_nonneg.mpr (min_le_right _ _)) (by norm_num)))
        (mul_nonneg (sub_nonneg.mpr hde) (by norm_num)))
        (mul_nonneg (mul_nonneg (sub_nonneg.mpr hdv) (by norm_num)) hM))
        (mul_nonneg (sub_nonneg.mpr hda) (by norm_num)))
        (mul_nonneg (sub_nonneg.mpr hdd) (by norm_num))
    · simp only [calculate_song_score]
      refine le_min ?_ (by norm_num)
      refine nonneg_ite_add ?_ (by norm_num)
      refine add_nonneg ?_ (mul_nonneg (div_nonneg hq1 (by norm_num)) (by norm_num))
      refine nonneg_ite_add ?_ (by norm_num)
      refine nonneg_ite_add ?_ (mul_nonneg (by norm_num) hW)
      refine nonneg_ite_add ?_ (mul_nonneg (by norm_num) hW)
      refine nonneg_ite_add2 ?_ (mul_nonneg (by norm_num) hW) (mul_nonneg (by norm_num) hW)
      refine nonneg_ite_add2 ?_ (mul_nonneg (by norm_num) hW) (mul_nonneg (by norm_num) hW)
      refine nonneg_ite_add2 ?_ (mul_nonneg (mul_nonneg (by norm_num) hE) hW)
        (mul_nonneg (mul_nonneg (by norm_num) hE) hW)
      refine nonneg_ite_nested ?_
        (mul_nonneg (mul_nonneg
          (le_min (div_nonneg (Nat.cast_nonneg _) (Nat.cast_nonneg _)) (by norm_num))
          (by norm_num)) hP)
      refine add_nonneg ?_ (le_max_left 0 _)
      refine add_nonneg (add_nonneg (add_nonneg (add_nonneg (add_nonneg (le_refl 0)
        (mul_nonneg (sub_nonneg.mpr (min_le_right _ _)) (by norm_num)))
        (mul_nonneg (sub_nonneg.mpr hde) (by norm_num)))
        (mul_nonneg (mul_nonneg (sub_nonneg.mpr hdv) (by norm_num)) hM))
        (mul_nonneg (sub_nonneg.mpr hda) (by norm_num)))
        (mul_nonneg (sub_nonneg.mpr hdd) (by norm_num))
  · simp only [calculate_song_score]
    exact min_le_right _ _

/-- Witness for C1 at a concrete input (a track with all descriptors at
their neutral defaults, a neutral profile, no tracker, no weights). -/
theorem calculate_song_score_bounds_witness :
    0 ≤ calculate_song_score emptySong neutralPreferences zeroModifiers [] none none
    ∧ calculate_song_score emptySong neutralPreferences zeroModifiers [] none none ≤ 157/100 :=
  calculate_song_score_bounds emptySong neutralPreferences zeroModifiers [] none none
    (by norm_num [DescriptorsInRange, emptySong])
    (by norm_num [ValidPreferences, neutralPreferences])
    (by norm_num [WeightsNonneg, emptyParameterWeights])

/-! ### Helper lemmas for queue generation -/

theorem insert_by_score_perm (x : Song) (l : List Song) :
    (insert_by_score x l).Perm (x :: l) := by
  induction l with
  | nil => exact List.Perm.refl _
  | cons y ys ih =>
    simp only [insert_by_score]
    split_ifs
    · exact List.Perm.refl _
    · exact (ih.cons y).trans (List.Perm.swap x y ys)

theorem foldl_insert_perm (l : List Song) :
    ∀ acc : List Song,
      (l.foldl (fun a x => insert_by_score x a) acc).Perm (acc ++ l) := by
  induction l with
  | nil => intro acc; simp
  | cons x t ih =>
    intro acc
    rw [List.foldl_cons]
    refine (ih (insert_by_score x acc)).trans ?_
    refine (((insert_by_score_perm x acc).append_right t)).trans ?_
    exact (List.perm_middle).symm

theorem sort_by_score_desc_perm (l : List Song) : (sort_by_score_desc l).Perm l := by
  simpa using foldl_insert_perm l []

theorem generate_queue_none_eq (tracks : List Song) (weather : Weather) (context : Context)
    (keywords : List String) (queue_size : ℕ) (behavior_tracker : Option BehaviorState)
    (parameter_weights : Option ParameterWeights) (shuffle : List Song → List Song) :
    generate_queue tracks none weather context keywords queue_size behavior_tracker
      parameter_weights shuffle = [] := by
  simp [generate_queue]

theorem generate_queue_nil_eq (preferences : Option Preferences) (weather : Weather)
    (context : Context) (keywords : List String) (queue_size : ℕ)
    (behavior_tracker : Option BehaviorState) (parameter_weights : Option ParameterWeights)
    (shuffle : List Song → List Song) :
    generate_queue [] preferences weather context keywords queue_size behavior_tracker
      parameter_weights shuffle = [] := by
  simp [generate_queue]

theorem generate_queue_some_eq (tracks : List Song) (prefs : Preferences) (weather : Weather)
    (context : Context) (keywords : List String) (queue_size : ℕ)
    (behavior_tracker : Option BehaviorState) (parameter_weights : Option ParameterWeights)
    (shuffle : List Song → List Song) :
    generate_queue tracks (some prefs) weather context keywords queue_size behavior_tracker
        parameter_weights shuffle
      = if tracks = [] then []
        else (shuffle (top_k_by_score tracks prefs weather context keywords behavior_tracker
            parameter_weights)).take queue_size := by
  by_cases h : tracks = []
  · simp [generate_queue, h]
  · simp [generate_queue, h]

theorem top_k_mem_copy (tracks : List Song) (prefs : Preferences) (weather : Weather)
    (context : Context) (keywords : List String) (behavior_tracker : Option BehaviorState)
    (parameter_weights : Option ParameterWeights) :
    ∀ t ∈ top_k_by_score tracks prefs weather context keywords behavior_tracker parameter_weights,
      ∃ u ∈ tracks, t = { u with score := some (calculate_song_score u prefs
          (combine_modifiers (get_weather_modifiers weather) (get_context_modifiers context))
          keywords behavior_tracker parameter_weights) } := by
  intro t ht
  simp only [top_k_by_score] at ht
  have h1 := List.take_subset _ _ ht
  have h2 := (sort_by_score_desc_perm _).subset h1
  rw [List.mem_map] at h2
  obtain ⟨u, hu, he⟩ := h2
  exact ⟨u, hu, he.symm⟩

/-! ### Claims about queue generation -/

/-- C2: `generate_queue` returns `[]` when the track list or the preference
profile is empty; otherwise (for any shuffle that permutes its input) it
returns at most `queue_size` tracks, each drawn from the
top-`min(20, |tracks|)`-by-score pool, and — identifying records by their
`id`, since the queue holds score-stamped copies — the queue together with
the residual candidate pool covers exactly the scored input set. -/
theorem generate_queue_spec (tracks : List Song) (preferences : Option Preferences)
    (weather : Weather) (context : Context) (keywords : List String) (queue_size : ℕ)
    (behavior_tracker : Option BehaviorState) (parameter_weights : Option ParameterWeights)
    (shuffle : List Song → List Song) (hshuffle : ∀ l : List Song, (shuffle l).Perm l) :
    (generate_queue tracks none weather context keywords queue_size behavior_tracker
        parameter_weights shuffle = []
     ∧ generate_queue [] preferences weather context keywords queue_size behavior_tracker
        parameter_weights shuffle = [])
    ∧ ∀ prefs : Preferences, preferences = some prefs →
        ((generate_queue tracks preferences weather context keywords queue_size behavior_tracker
            parameter_weights shuffle).length ≤ queue_size
        ∧ (∀ t, t ∈ generate_queue tracks preferences weather context keywords queue_size
              behavior_tracker parameter_weights shuffle →
            t ∈ top_k_by_score tracks prefs weather context keywords behavior_tracker
              parameter_weights)
        ∧ ∀ tid : Option String,
            (tid ∈ (generate_queue tracks preferences weather context keywords queue_size
                  behavior_tracker parameter_weights shuffle).map Song.id
              ∨ tid ∈ (candidate_pool tracks (generate_queue tracks preferences weather context
                  keywords queue_size behavior_tracker parameter_weights shuffle)).map Song.id)
            ↔ tid ∈ tracks.map Song.id) := by
  refine ⟨⟨generate_queue_none_eq _ _ _ _ _ _ _ _,
          generate_queue_nil_eq _ _ _ _ _ _ _ _⟩, ?_⟩
  intro prefs hp
  subst hp
  simp only [generate_queue_some_eq]
  by_cases htr : tracks = []
  · subst htr
    simp [candidate_pool]
  · simp only [if_neg htr]
    refine ⟨?_, ?_, ?_⟩
    · rw [List.length_take]
      exact min_le_left _ _
    · intro t ht
      exact (hshuffle _).subset (List.take_subset _ _ ht)
    · intro tid
      constructor
      · rintro (h | h)
        · rw [List.mem_map] at h
          obtain ⟨t, htq, hid⟩ := h
          have htk : t ∈ top_k_by_score tracks prefs weather context keywords behavior_tracker
              parameter_weights :=
            (hshuffle _).subset (List.take_subset _ _ htq)
          obtain ⟨u, hu, hcopy⟩ := top_k_mem_copy tracks prefs weather context keywords
            behavior_tracker parameter_weights t htk
          refine List.mem_map.mpr ⟨u, hu, ?_⟩
          rw [← hid, hcopy]
        · rw [List.mem_map] at h
          obtain ⟨t, htp, hid⟩ := h
          simp only [candidate_pool, List.mem_filter] at htp
          exact List.mem_map.mpr ⟨t, htp.1, hid⟩
      · intro h
        rw [List.mem_map] at h
        obtain ⟨u, hu, hid⟩ := h
        by_cases hin : tid ∈ ((shuffle (top_k_by_score tracks prefs weather context keywords
            behavior_tracker parameter_weights)).take queue_size).map Song.id
        · exact Or.inl hin
        · refine Or.inr (List.mem_map.mpr ⟨u, ?_, hid⟩)
          simp only [candidate_pool, List.mem_filter]
          refine ⟨hu, ?_⟩
          rw [decide_eq_true_eq]
          intro hmem
          apply hin
          exact hid ▸ hmem

/-- Witness for C2 at a concrete input (one track, identity shuffle). -/
theorem generate_queue_spec_witness :
    (generate_queue [emptySong] (some neutralPreferences) emptyWeather emptyContext [] 10 none
        none (fun l => l)).length ≤ 10 := by
  have h := generate_queue_spec [emptySong] (some neutralPreferences) emptyWeather emptyContext
    [] 10 none none (fun l => l) (fun l => List.Perm.refl l)
  exact (h.2 neutralPreferences rfl).1

/-! ### Claims about track-record ownership -/

/-- C9 counterexample: the re-scoring loop of `rescore_candidates` does
mutate the track records it receives — after the call, the caller's
candidate list no longer holds the record that was passed in (its `score`
key has been written in place). -/
theorem rescore_mutates_counterexample :
    rescore_candidates_post [emptySong] neutralPreferences emptyWeather [] initBehaviorState none
      ≠ [emptySong] := by
  intro h
  simp only [rescore_candidates_post, rescore_scored_candidates, List.map_cons, List.map_nil] at h
  injection h with h1 _
  have h2 := congrArg Song.score h1
  simp [emptySong] at h2

/-- C9 amended: queue generation attaches scores to fresh copies and leaves
the caller's track list untouched, but re-scoring writes the `score` key
into the received records in place: a candidate record without a score never
survives the re-scoring loop unmodified. -/
theorem track_record_mutation :
    (∀ tracks : List Song, generate_queue_tracks_post tracks = tracks)
    ∧ (∀ (candidates : List Song) (preferences : Preferences) (weather : Weather)
        (keywords : List String) (behavior_tracker : BehaviorState)
        (parameter_weights : Option ParameterWeights) (t : Song),
        t.score = none →
        t ∉ rescore_candidates_post candidates preferences weather keywords behavior_tracker
              parameter_weights) := by
  constructor
  · intro tracks
    rfl
  · intro cands p w kw bt pw t hsc hmem
    simp only [rescore_candidates_post, rescore_scored_candidates, List.mem_map] at hmem
    obtain ⟨u, _, hequ⟩ := hmem
    have h2 := congrArg Song.score hequ
    rw [hsc] at h2
    simp at h2

/-- Witness for C9's amended statement at a concrete input. -/
theorem track_record_mutation_witness :
    emptySong ∉ rescore_candidates_post [emptySong] neutralPreferences emptyWeather []
        initBehaviorState none :=
  track_record_mutation.2 [emptySong] neutralPreferences emptyWeather [] initBehaviorState none
    emptySong rfl

end AdaptiveMusic
